import Mathlib

/-!
Shallow embedding of the option resolution, precedence, and validation engine
of the Pyntel4004 command line front end (source file: src/pyntel4004/src/cli.py).

Python values that flow through the resolution code are modelled by the
inductive type `PyVal`.  Configuration sections (the nested mappings produced
by the external TOML parser) are association lists from keys to `PyVal`.
The TOML parser itself is out of scope of this slice of the system and is
modelled as an oracle `String -> Option Toml` (`none` models a decode error);
the filesystem is modelled by an oracle `String -> FileState`.

The external collaborators assemble, disassemble, execute and retrieve are
represented only through their observable inputs (the dispatch records in the
command outcomes) and their boolean results, which are parameters of the
command models.
-/

set_option autoImplicit false

namespace Cli4004

/-- A Python value as it appears in the resolution code: None, a bool, an int,
a string, a list or a tuple.  The TOML parser never produces `pynone`, but the
source compares values against None, so the constructor is kept. -/
inductive PyVal where
  | pynone : PyVal
  | bool : Bool → PyVal
  | int : Int → PyVal
  | str : String → PyVal
  | list : List PyVal → PyVal
  | tuple : List PyVal → PyVal

/-- Python identity test `v is None`. -/
def PyVal.isNone : PyVal → Bool
  | .pynone => true
  | _ => false

/-- Python identity test `v is False` (only the boolean False is identical to
the False singleton). -/
def PyVal.isFalseLit : PyVal → Bool
  | .bool false => true
  | _ => false

/-- Python truthiness of a value, as used by `if quiet and monitor` and
`if result and exec` in the source. -/
def PyVal.truthy : PyVal → Bool
  | .pynone => false
  | .bool b => b
  | .int n => n != 0
  | .str s => s != ""
  | .list xs => !xs.isEmpty
  | .tuple xs => !xs.isEmpty

/-- Python equality `v == s` where `s` is a string literal.  A non-string
value never equals a string in Python (the bool/int cross equality of Python
only relates bools and numbers), so this is a match on the string case. -/
def PyVal.eqStr (v : PyVal) (s : String) : Bool :=
  match v with
  | .str t => t == s
  | _ => false

/-- Python equality `v == t` where `t` is a tuple of string literals, such as
the `("None",)` default marker of the --type option.  A list never equals a
tuple in Python, and a non-string element never equals a string element. -/
def PyVal.eqStrTuple (v : PyVal) (ss : List String) : Bool :=
  match v with
  | .tuple xs => go xs ss
  | _ => false
where
  go : List PyVal → List String → Bool
  | [], [] => true
  | PyVal.str t :: xs, s :: rest => t == s && go xs rest
  | _, _ => false

/-- Python `s.upper()` for the ASCII strings used as output type tokens. -/
def upper (s : String) : String :=
  String.mk (s.data.map Char.toUpper)

/-- A configuration section: a mapping from option keys to values. -/
abbrev Section := List (String × PyVal)

/-- A parsed configuration file: a mapping from section names to sections. -/
abbrev Toml := List (String × Section)

/-- Python `configuration[k]` lookup (first matching key). -/
def secFind (c : Section) (k : String) : Option PyVal :=
  match c with
  | [] => none
  | (k2, v) :: rest => if k2 == k then some v else secFind rest k

/-- Python `k in configuration`. -/
def secContains (c : Section) (k : String) : Bool :=
  (secFind c k).isSome

/-- Lookup of a section in a parsed configuration file. -/
def tomlFind (t : Toml) (k : String) : Option Section :=
  match t with
  | [] => none
  | (k2, v) :: rest => if k2 == k then some v else tomlFind rest k

/-- The error outcomes of the resolution engine.  `unboundLocalError` models a
Python UnboundLocalError (a local name referenced before assignment);
`osError` models an OSError that the source lets propagate uncaught. -/
inductive Err where
  | coreNotInstalled : Err
  | configFileNotFound : String → Err
  | badFormat : String → Err
  | badOptionUsage : String → String → Err
  | badParameter : String → Err
  | unboundLocalError : String → Err
  | osError : String → Err
  | attributeError : Err
  | typeError : Err
  deriving DecidableEq

/-- Message of the quiet/monitor mutual exclusion error (cli.py lines 305-307). -/
def quietMonitorMsg : String :=
  "Invalid Parameter Combination: --quiet and --monitor cannot be used together\n"

/-- Message of the missing output type error (cli.py line 311). -/
def noTypeMsg : String := "No output type specified\n"

/-- Message of the invalid output type error (cli.py line 127). -/
def invalidTypeMsg : String := "Invalid output type specified\n"

/-- Message of the ALL-with-others error (cli.py lines 137-138). -/
def allOthersMsg : String := "Cannot specify \x27ALL\x27 with any others\n"

/-- Message of the empty asm section error (cli.py line 112). -/
def emptyAsmMsg : String := "Empty \x27asm\x27 section in configuration file\n"

/-- Message of the missing asm section error (cli.py line 298). -/
def noAsmMsg : String := "No \x27asm\x27 section in configuration file\n"

/-- Message of the missing dis section error (cli.py line 353). -/
def noDisMsg : String := "No \x27dis\x27 section in configuration file\n"

/-- Message of the missing exe section error (cli.py line 387). -/
def noExeMsg : String := "No \x27exe\x27 section in configuration file\n"

/-- Message of the instruction range error (cli.py lines 71-72); the source
concatenates the two halves without a space, hence the missing blank. -/
def instRangeMsg : String := "Instructions should bebetween 1 and 4096"

/-- Message of the missing object file error (cli.py line 92). -/
def noObjectMsg : String := "No object file specified\n"

/-- Message of the missing configuration file error (cli.py line 193). -/
def configNotFoundMsg : String := "Error:Configuration file not found."

/-- Message of the malformed configuration file error (cli.py line 197). -/
def badFormatMsg : String := "Badly formatted configuration file"

/-- The value of a click option that was not given on the invocation: None
for unset options, the value itself otherwise. -/
def toPyStr : Option String → PyVal
  | none => PyVal.pynone
  | some s => PyVal.str s

/-- A click flag declared with default None: None when not given, True when
given (click flags cannot be explicitly set to False). -/
def toPyFlag : Option Bool → PyVal
  | none => PyVal.pynone
  | some b => PyVal.bool b

/-- An optional integer option: None when not given. -/
def toPyInt : Option Int → PyVal
  | none => PyVal.pynone
  | some n => PyVal.int n

/-- `check_quiet` (cli.py lines 44-52): an explicitly given flag resolves to
True; an unset flag resolves to the configuration value when the key is
present, and to False otherwise. -/
def check_quiet (quiet : PyVal) (configuration : Section) : PyVal :=
  if quiet.isNone then
    match secFind configuration "quiet" with
    | some v => v
    | none => PyVal.bool false
  else
    PyVal.bool true

/-- `check_exec` (cli.py lines 55-63), same shape as `check_quiet`. -/
def check_exec (exec : PyVal) (configuration : Section) : PyVal :=
  if exec.isNone then
    match secFind configuration "exec" with
    | some v => v
    | none => PyVal.bool false
  else
    PyVal.bool true

/-- `check_monitor` (cli.py lines 76-84), same shape as `check_quiet`. -/
def check_monitor (monitor : PyVal) (configuration : Section) : PyVal :=
  if monitor.isNone then
    match secFind configuration "monitor" with
    | some v => v
    | none => PyVal.bool false
  else
    PyVal.bool true

/-- `check_inst` (cli.py lines 66-73): None defaults to 4096; an integer
outside 1..4096 is rejected.  A value of another type would make the Python
comparison raise; a bool is compared as its numeric value. -/
def check_inst (inst : PyVal) : Except Err PyVal :=
  match inst with
  | .pynone => .ok (.int 4096)
  | .int n =>
      if n < 1 ∨ n > 4096 then .error (.badOptionUsage "--inst" instRangeMsg)
      else .ok (.int n)
  | .bool b =>
      if (if b then (1 : Int) else 0) < 1 ∨ (if b then (1 : Int) else 0) > 4096 then
        .error (.badOptionUsage "--inst" instRangeMsg)
      else .ok (.bool b)
  | _ => .error .typeError

/-- `check_dis_content` (cli.py lines 87-99).  The source assigns the local
`object_file` only inside the branch taken when the section has an object key
and the invocation supplied none; on every other path the final return
references the never-assigned local and Python raises UnboundLocalError. -/
def check_dis_content (configuration : Section) (object inst labels : PyVal) :
    Except Err (PyVal × PyVal × PyVal) :=
  if secContains configuration "object" && object.isNone then
    let object_file := (secFind configuration "object").getD PyVal.pynone
    if object_file.isNone then
      .error (.badOptionUsage "--object/--config" noObjectMsg)
    else
      let inst :=
        if secContains configuration "inst" && inst.isNone then
          (secFind configuration "inst").getD inst
        else inst
      let labels :=
        if labels.isFalseLit && secContains configuration "labels" then
          (secFind configuration "labels").getD labels
        else PyVal.bool true
      .ok (object_file, inst, labels)
  else
    .error (.unboundLocalError "object_file")

/-- The merge of the input path in `check_asm_content` (cli.py lines 103-104). -/
def merge_input (configuration : Section) (input_file : PyVal) : PyVal :=
  if secContains configuration "input" && input_file.isNone then
    (secFind configuration "input").getD input_file
  else input_file

/-- The merge of the output path in `check_asm_content` (cli.py lines 105-106). -/
def merge_output (configuration : Section) (output : PyVal) : PyVal :=
  if secContains configuration "output" && output.eqStr "default" then
    (secFind configuration "output").getD output
  else output

/-- The merge of the output type collection in `check_asm_content`
(cli.py lines 107-108). -/
def merge_type (configuration : Section) (type_type : PyVal) : PyVal :=
  if secContains configuration "type" && type_type.eqStrTuple ["None"] then
    (secFind configuration "type").getD type_type
  else type_type

/-- `check_asm_content` (cli.py lines 102-113): merge input, output and type
with the section, then reject a functionally empty section, one that left all
three at their default markers. -/
def check_asm_content (configuration : Section) (input_file output type_type : PyVal) :
    Except Err (PyVal × PyVal × PyVal) :=
  let input_file := merge_input configuration input_file
  let output := merge_output configuration output
  let type_type := merge_type configuration type_type
  if input_file.isNone && output.eqStr "default" && type_type.eqStrTuple ["None"] then
    .error (.badOptionUsage "--config" emptyAsmMsg)
  else
    .ok (input_file, output, type_type)

/-- `check_type` (cli.py lines 116-138): one pass computes whether every token
upper-cases into the valid set and whether ALL occurs; invalid tokens are
reported first, then ALL combined with any of OBJ, H, BIN. -/
def check_type (type_type : List String) : Except Err Unit :=
  let good := type_type.all fun i => ["ALL", "OBJ", "H", "BIN"].contains (upper i)
  let all_found := type_type.any fun i => ["ALL"].contains (upper i)
  if good = false then
    .error (.badOptionUsage "--type" invalidTypeMsg)
  else if all_found && (type_type.any fun i => ["OBJ", "H", "BIN"].contains (upper i)) then
    .error (.badOptionUsage "--type" allOthersMsg)
  else
    .ok ()

/-- Python iteration over the --type value as done by the loops of
`check_type`: lists and tuples yield their elements, which must be strings
for `i.upper()` to exist; a string yields its characters. -/
def iterStrs : PyVal → Except Err (List String)
  | .list xs => go xs
  | .tuple xs => go xs
  | .str s => .ok (s.data.map fun c => String.mk [c])
  | _ => .error .typeError
where
  go : List PyVal → Except Err (List String)
  | [] => .ok []
  | PyVal.str s :: rest =>
      match go rest with
      | .ok ss => .ok (s :: ss)
      | .error e => .error e
  | _ :: _ => .error .attributeError

/-- The observable state of a path in the filesystem: `err e` means that
opening the path raises OSError with strerror `e` (a missing file has
strerror "No such file or directory"); `file c` means the path opens and
holds text `c`. -/
inductive FileState where
  | err : String → FileState
  | file : String → FileState

/-- `get_config` (cli.py lines 164-198).  The open probe converts only an
OSError whose strerror starts with "No such file" into ConfigFileNotFound;
any other OSError is swallowed by the except block, and the subsequent
`toml.load` then raises the same OSError, which no handler catches.  A decode
failure of the parser becomes BadFormat. -/
def get_config (parse : String → Option Toml) (fs : String → FileState)
    (toml_file : String) : Except Err Toml :=
  match fs toml_file with
  | .err e =>
      if e.take 12 == "No such file" then
        .error (.configFileNotFound configNotFoundMsg)
      else
        .error (.osError e)
  | .file content =>
      match parse content with
      | none => .error (.badFormat badFormatMsg)
      | some configuration => .ok configuration

/-- The kinds of messages the asm command can emit after assembling
(cli.py lines 315-321). -/
inductive Msg where
  | blank : Msg
  | execBanner : Msg
  | acc : Msg
  | carry : Msg
  deriving DecidableEq

/-- Modelled from the spec: `print_messages` is an external collaborator
(shared.shared) whose code is not part of this repository; per the spec it
takes the quiet flag and a message kind and emits the message unless quiet is
truthy.  The model returns the emitted messages. -/
def print_messages (quiet : PyVal) (kind : Msg) : List Msg :=
  if quiet.truthy then [] else [kind]

/-- The observable outcome of a successful asm run: the arguments handed to
the external `assemble`, whether `execute` was invoked, and the messages
emitted after assembling. -/
structure AsmOutcome where
  input_file : PyVal
  output : PyVal
  quiet : PyVal
  type_type : PyVal
  executed : Bool
  trace : List Msg

/-- The asm invocation as click delivers it: flags declared with default None
are None or True; --output defaults to the string "default"; --type defaults
to the one element tuple ("None",). -/
structure AsmInvocation where
  input : Option String
  output : String
  exec : Option Bool
  quiet : Option Bool
  monitor : Option Bool
  type : List String
  config : Option String

/-- The straight line tail of `asm` (cli.py lines 300-321): mutual exclusion
check, output type presence check, output type content check, then the
assemble dispatch and the optional execute chain with its messages. -/
def asm_tail (assemble_result execute_result : Bool)
    (input_file output exec monitor quiet type_type : PyVal) : Except Err AsmOutcome :=
  if quiet.truthy && monitor.truthy then
    .error (.badParameter quietMonitorMsg)
  else if type_type.eqStrTuple ["None"] then
    .error (.badOptionUsage "--type" noTypeMsg)
  else
    match iterStrs type_type with
    | .error e => .error e
    | .ok toks =>
        match check_type toks with
        | .error e => .error e
        | .ok _ =>
            let result := assemble_result
            let executed := result && exec.truthy
            let trace :=
              if executed then
                print_messages quiet Msg.execBanner ++
                  (if execute_result then
                    print_messages quiet Msg.blank ++ print_messages quiet Msg.acc ++
                      print_messages quiet Msg.carry ++ print_messages quiet Msg.blank
                  else [])
              else []
            .ok ⟨input_file, output, quiet, type_type, executed, trace⟩

/-- The `asm` command (cli.py lines 256-321): optional configuration load and
merge, then the validation and dispatch tail. -/
def asm (core : Bool) (parse : String → Option Toml) (fs : String → FileState)
    (assemble_result execute_result : Bool) (inv : AsmInvocation) : Except Err AsmOutcome :=
  if !core then .error .coreNotInstalled
  else
    match inv.config with
    | none =>
        asm_tail assemble_result execute_result (toPyStr inv.input) (PyVal.str inv.output)
          (toPyFlag inv.exec) (toPyFlag inv.monitor) (toPyFlag inv.quiet)
          (PyVal.tuple (inv.type.map PyVal.str))
    | some cfgPath =>
        match get_config parse fs cfgPath with
        | .error e => .error e
        | .ok configuration =>
            match tomlFind configuration "asm" with
            | none => .error (.badOptionUsage "--config" noAsmMsg)
            | some asm_configuration =>
                match check_asm_content asm_configuration (toPyStr inv.input)
                    (PyVal.str inv.output) (PyVal.tuple (inv.type.map PyVal.str)) with
                | .error e => .error e
                | .ok (input_file, output, type_type) =>
                    asm_tail assemble_result execute_result input_file output
                      (check_exec (toPyFlag inv.exec) asm_configuration)
                      (check_monitor (toPyFlag inv.monitor) asm_configuration)
                      (check_quiet (toPyFlag inv.quiet) asm_configuration)
                      type_type

/-- The observable outcome of a successful dis run: the arguments that reach
the external `retrieve` and `disassemble` calls. -/
inductive DisOutcome where
  | dispatch : PyVal → PyVal → PyVal → DisOutcome

/-- The dis invocation as click delivers it: --labels is a flag with default
False, so an unset flag and an explicit flag are both plain booleans. -/
structure DisInvocation where
  object : Option String
  inst : Option Int
  labels : Bool
  config : Option String

/-- The `dis` command (cli.py lines 324-358): optional configuration load and
merge through `check_dis_content`, then the instruction range check and the
dispatch of retrieve and disassemble. -/
def dis (core : Bool) (parse : String → Option Toml) (fs : String → FileState)
    (inv : DisInvocation) : Except Err DisOutcome :=
  if !core then .error .coreNotInstalled
  else
    match inv.config with
    | none =>
        match check_inst (toPyInt inv.inst) with
        | .error e => .error e
        | .ok inst =>
            .ok (.dispatch (toPyStr inv.object) inst (PyVal.bool inv.labels))
    | some cfgPath =>
        match get_config parse fs cfgPath with
        | .error e => .error e
        | .ok configuration =>
            match tomlFind configuration "dis" with
            | none => .error (.badOptionUsage "--config" noDisMsg)
            | some dis_configuration =>
                match check_dis_content dis_configuration (toPyStr inv.object)
                    (toPyInt inv.inst) (PyVal.bool inv.labels) with
                | .error e => .error e
                | .ok (object_file, inst0, labels) =>
                    match check_inst inst0 with
                    | .error e => .error e
                    | .ok inst => .ok (.dispatch object_file inst labels)

/-- The observable outcome of a successful exe run: the arguments that reach
the external `retrieve` and `execute` calls. -/
inductive ExeOutcome where
  | dispatch : PyVal → PyVal → ExeOutcome

/-- The exe invocation as click delivers it: --quiet is a flag with default
False (not None), so its value is always a plain boolean. -/
structure ExeInvocation where
  object : Option String
  quiet : Bool
  config : Option String

/-- The `exe` command (cli.py lines 361-393).  The source assigns the local
`object_file` only inside the configuration branch, so when no configuration
path is given the later `retrieve(object_file, ...)` call references a local
that was never assigned and Python raises UnboundLocalError. -/
def exe (core : Bool) (parse : String → Option Toml) (fs : String → FileState)
    (inv : ExeInvocation) : Except Err ExeOutcome :=
  if !core then .error .coreNotInstalled
  else
    match inv.config with
    | none => .error (.unboundLocalError "object_file")
    | some cfgPath =>
        match get_config parse fs cfgPath with
        | .error e => .error e
        | .ok configuration =>
            match tomlFind configuration "exe" with
            | none => .error (.badOptionUsage "--config" noExeMsg)
            | some exe_configuration =>
                let object_file := toPyStr inv.object
                let object_file :=
                  if secContains exe_configuration "object" && object_file.isNone then
                    (secFind exe_configuration "object").getD object_file
                  else object_file
                let quiet := check_quiet (PyVal.bool inv.quiet) exe_configuration
                .ok (.dispatch object_file quiet)

end Cli4004

namespace Cli4004

/-- A TOML parser oracle that always yields the given parsed configuration. -/
def parseOf (t : Toml) : String → Option Toml := fun _ => some t

/-- A TOML parser oracle that always reports a decode error. -/
def emptyParse : String → Option Toml := fun _ => none

/-- A filesystem in which every path opens and holds some text. -/
def fsFile : String → FileState := fun _ => FileState.file "cfg-text"

/-- A filesystem in which no path exists. -/
def fsNoSuchFile : String → FileState := fun _ => FileState.err "No such file or directory"

/-- A filesystem in which every path exists but cannot be opened. -/
def fsPermDenied : String → FileState := fun _ => FileState.err "Permission denied"

/-- Iterating over the click tuple of type tokens yields exactly the tokens. -/
theorem iterStrs_tuple_map (ty : List String) :
    iterStrs (PyVal.tuple (ty.map PyVal.str)) = .ok ty := by
  show iterStrs.go (ty.map PyVal.str) = .ok ty
  induction ty with
  | nil => rfl
  | cons s rest ih => simp [iterStrs.go, ih]

/-- A dis section supplying only the object path. -/
def tomlC1dis : Toml := [("dis", [("object", PyVal.str "rom.bin")])]

/-- An exe section supplying the object path and quiet explicitly false. -/
def tomlC1exe : Toml :=
  [("exe", [("object", PyVal.str "rom.bin"), ("quiet", PyVal.bool false)])]

/-- C1: the claimed three-tier precedence (explicit over configuration over
default) fails on the code.  With a dis section that has an object but no
labels key and an invocation that left --labels unset (its click default is
False), the merge resolves labels to True instead of the built-in default
False, both in `check_dis_content` and through the whole dis command; and
`check_quiet` called from exe, whose quiet flag is a plain boolean that is
never None, resolves an unset quiet to True even when the section says
quiet is false. -/
theorem C1_dis_exe_precedence_broken :
    check_dis_content [("object", PyVal.str "rom.bin")] PyVal.pynone PyVal.pynone
        (PyVal.bool false) =
      .ok (PyVal.str "rom.bin", PyVal.pynone, PyVal.bool true) ∧
    dis true (parseOf tomlC1dis) fsFile ⟨none, none, false, some "cfg.toml"⟩ =
      .ok (.dispatch (.str "rom.bin") (.int 4096) (.bool true)) ∧
    check_quiet (PyVal.bool false) [("quiet", PyVal.bool false)] = PyVal.bool true ∧
    exe true (parseOf tomlC1exe) fsFile ⟨none, false, some "cfg.toml"⟩ =
      .ok (.dispatch (.str "rom.bin") (.bool true)) :=
  ⟨rfl, rfl, rfl, rfl⟩

/-- C2: invoking exe with an explicit object path and no configuration path
does not dispatch retrieve and execute; the local object_file is assigned
only inside the configuration branch, so the retrieve call raises
UnboundLocalError. -/
theorem C2_exe_no_config_unbound_local :
    exe true emptyParse fsNoSuchFile ⟨some "rom.bin", false, none⟩ =
      .error (.unboundLocalError "object_file") :=
  rfl

/-- A dis section without an object key. -/
def tomlC3 : Toml := [("dis", [("inst", PyVal.int 100)])]

/-- C3: when the object path is absent from both the invocation and the dis
section, the command does not fail with the claimed no-object-file usage
error; `check_dis_content` skips the branch that assigns object_file and the
return raises UnboundLocalError instead. -/
theorem C3_dis_missing_object_unbound_local :
    dis true (parseOf tomlC3) fsFile ⟨none, none, false, some "cfg.toml"⟩ =
      .error (.unboundLocalError "object_file") ∧
    Err.unboundLocalError "object_file" ≠
      Err.badOptionUsage "--object/--config" noObjectMsg :=
  ⟨rfl, by decide⟩

/-- A dis section with an object but no instruction count. -/
def tomlC4a : Toml := [("dis", [("object", PyVal.str "rom.bin")])]

/-- A dis section with an object and an instruction count of 17. -/
def tomlC4b : Toml :=
  [("dis", [("object", PyVal.str "rom.bin"), ("inst", PyVal.int 17)])]

/-- C4: `check_inst` rejects an integer count exactly when it is below 1 or
above 4096, so 0 and 4097 fail while 1 and 4096 succeed; a count that is
still unset after the merge defaults to 4096.  The default is applied only
after the merge: a count taken from the configuration section reaches the
dispatch, and only a count absent from both sources becomes 4096. -/
theorem C4_check_inst_range :
    (∀ n : Int, check_inst (.int n) =
      if n < 1 ∨ n > 4096 then .error (.badOptionUsage "--inst" instRangeMsg)
      else .ok (.int n)) ∧
    check_inst (.int 0) = .error (.badOptionUsage "--inst" instRangeMsg) ∧
    check_inst (.int 4097) = .error (.badOptionUsage "--inst" instRangeMsg) ∧
    check_inst (.int 1) = .ok (.int 1) ∧
    check_inst (.int 4096) = .ok (.int 4096) ∧
    check_inst PyVal.pynone = .ok (.int 4096) ∧
    dis true (parseOf tomlC4a) fsFile ⟨none, none, false, some "cfg.toml"⟩ =
      .ok (.dispatch (.str "rom.bin") (.int 4096) (.bool true)) ∧
    dis true (parseOf tomlC4b) fsFile ⟨none, none, false, some "cfg.toml"⟩ =
      .ok (.dispatch (.str "rom.bin") (.int 17) (.bool true)) :=
  ⟨fun _ => rfl, rfl, rfl, rfl, rfl, rfl, rfl, rfl⟩

/-- C5: `check_type` upper-cases every token; a collection whose tokens all
normalize into the valid set and which does not combine ALL with one of OBJ,
H, BIN is accepted; any token outside the set is rejected with the invalid
type error; and a collection whose tokens are all valid but which combines
ALL with one of OBJ, H, BIN is rejected with the exclusivity error. -/
theorem C5_check_type_validation (toks : List String) :
    ((∀ i ∈ toks, upper i ∈ (["ALL", "OBJ", "H", "BIN"] : List String)) →
      (¬ ((∃ i ∈ toks, upper i = "ALL") ∧
          ∃ i ∈ toks, upper i ∈ (["OBJ", "H", "BIN"] : List String))) →
      check_type toks = .ok ()) ∧
    ((∃ i ∈ toks, upper i ∉ (["ALL", "OBJ", "H", "BIN"] : List String)) →
      check_type toks = .error (.badOptionUsage "--type" invalidTypeMsg)) ∧
    ((∀ i ∈ toks, upper i ∈ (["ALL", "OBJ", "H", "BIN"] : List String)) →
      (∃ i ∈ toks, upper i = "ALL") →
      (∃ i ∈ toks, upper i ∈ (["OBJ", "H", "BIN"] : List String)) →
      check_type toks = .error (.badOptionUsage "--type" allOthersMsg)) := by
  have hall : (toks.all fun i => ["ALL", "OBJ", "H", "BIN"].contains (upper i)) = true ↔
      ∀ i ∈ toks, upper i ∈ (["ALL", "OBJ", "H", "BIN"] : List String) := by
    simp [List.all_eq_true, List.elem_iff]
  have hanyA : (toks.any fun i => ["ALL"].contains (upper i)) = true ↔
      ∃ i ∈ toks, upper i = "ALL" := by
    simp [List.any_eq_true, List.elem_iff]
  have hanyO : (toks.any fun i => ["OBJ", "H", "BIN"].contains (upper i)) = true ↔
      ∃ i ∈ toks, upper i ∈ (["OBJ", "H", "BIN"] : List String) := by
    simp [List.any_eq_true, List.elem_iff]
  refine ⟨fun hv hn => ?_, fun hbad => ?_, fun hv hA hO => ?_⟩
  · unfold check_type
    rw [if_neg, if_neg]
    · intro hcon
      rw [Bool.and_eq_true, hanyA, hanyO] at hcon
      exact hn hcon
    · rw [hall.mpr hv]
      simp
  · unfold check_type
    rw [if_pos]
    rw [← Bool.not_eq_true, hall]
    intro h
    obtain ⟨i, hi, hni⟩ := hbad
    exact hni (h i hi)
  · unfold check_type
    rw [if_neg, if_pos]
    · rw [Bool.and_eq_true, hanyA, hanyO]
      exact ⟨hA, hO⟩
    · rw [hall.mpr hv]
      simp

/-- Witness for C5: the collection obj, h is accepted case-insensitively and
the collection ALL, OBJ is rejected with the exclusivity error. -/
theorem C5_check_type_validation_witness :
    check_type ["obj", "h"] = .ok () ∧
    check_type ["ALL", "OBJ"] = .error (.badOptionUsage "--type" allOthersMsg) :=
  ⟨(C5_check_type_validation ["obj", "h"]).1 (by decide) (by decide),
   (C5_check_type_validation ["ALL", "OBJ"]).2.2 (by decide) (by decide) (by decide)⟩

/-- C6 counterexample: an asm invocation that violates both the output type
presence check (--type left at its default marker) and the quiet/monitor
mutual exclusion is reported with the mutual exclusion error, not with the
presence error the claim says is reported first. -/
theorem C6_counterexample :
    asm true emptyParse fsNoSuchFile false false
        ⟨some "a.asm", "default", none, some true, some true, ["None"], none⟩ =
      .error (.badParameter quietMonitorMsg) ∧
    Err.badParameter quietMonitorMsg ≠ Err.badOptionUsage "--type" noTypeMsg :=
  ⟨rfl, by decide⟩

/-- C6 amended: the asm command checks quiet/monitor mutual exclusion first,
then the output type presence check, then the output type content check; the
presence check still precedes the content check, but the combination check
precedes both. -/
theorem C6_validation_order (aRes eRes : Bool) (input : Option String) (output : String)
    (ex q m : Option Bool) (ty : List String) :
    (((toPyFlag q).truthy && (toPyFlag m).truthy) = true →
      asm true emptyParse fsNoSuchFile aRes eRes ⟨input, output, ex, q, m, ty, none⟩ =
        .error (.badParameter quietMonitorMsg)) ∧
    (((toPyFlag q).truthy && (toPyFlag m).truthy) = false →
      (PyVal.tuple (ty.map PyVal.str)).eqStrTuple ["None"] = true →
      asm true emptyParse fsNoSuchFile aRes eRes ⟨input, output, ex, q, m, ty, none⟩ =
        .error (.badOptionUsage "--type" noTypeMsg)) ∧
    (((toPyFlag q).truthy && (toPyFlag m).truthy) = false →
      (PyVal.tuple (ty.map PyVal.str)).eqStrTuple ["None"] = false →
      ∀ e, check_type ty = .error e →
        asm true emptyParse fsNoSuchFile aRes eRes ⟨input, output, ex, q, m, ty, none⟩ =
          .error e) := by
  refine ⟨fun h1 => ?_, fun h1 h2 => ?_, fun h1 h2 e he => ?_⟩
  · simp [asm, asm_tail, h1]
  · simp [asm, asm_tail, h1, h2]
  · simp [asm, asm_tail, h1, h2, iterStrs_tuple_map, he]

/-- Witness for C6 amended: with quiet and monitor both given and a valid
type token, the mutual exclusion error is the one reported. -/
theorem C6_validation_order_witness :
    asm true emptyParse fsNoSuchFile false false
        ⟨some "a.asm", "default", none, some true, some true, ["OBJ"], none⟩ =
      .error (.badParameter quietMonitorMsg) :=
  (C6_validation_order false false (some "a.asm") "default" none (some true) (some true)
    ["OBJ"]).1 rfl

/-- An asm section whose only key is quiet, so input, output and type all
stay at their default markers after the merge. -/
def secC7 : Cli4004.Section := [("quiet", PyVal.bool true)]

/-- A configuration whose asm section is `secC7`. -/
def tomlC7 : Toml := [("asm", secC7)]

/-- C7: with a configuration path given, a configuration without an asm
section fails with the no-asm-section usage error; and when the asm section
exists but the merge leaves the input path, the output path and the output
type collection all at their unresolved or default state, the command fails
with the empty-asm-section error. -/
theorem C7_asm_section_errors (parse : String → Option Toml) (fs : String → FileState)
    (aRes eRes : Bool) (input : Option String) (output : String)
    (ex q m : Option Bool) (ty : List String) (cfgPath : String) (t : Toml)
    (hg : get_config parse fs cfgPath = .ok t) :
    (tomlFind t "asm" = none →
      asm true parse fs aRes eRes ⟨input, output, ex, q, m, ty, some cfgPath⟩ =
        .error (.badOptionUsage "--config" noAsmMsg)) ∧
    (∀ sec, tomlFind t "asm" = some sec →
      (merge_input sec (toPyStr input)).isNone = true →
      (merge_output sec (PyVal.str output)).eqStr "default" = true →
      (merge_type sec (PyVal.tuple (ty.map PyVal.str))).eqStrTuple ["None"] = true →
      asm true parse fs aRes eRes ⟨input, output, ex, q, m, ty, some cfgPath⟩ =
        .error (.badOptionUsage "--config" emptyAsmMsg)) := by
  refine ⟨fun h => ?_, fun sec hs h1 h2 h3 => ?_⟩
  · simp [asm, hg, h]
  · simp [asm, hg, hs, check_asm_content, h1, h2, h3]

/-- Witness for C7: an asm section holding only a quiet key leaves all three
values at their defaults after the merge, and the command reports the
empty-asm-section error. -/
theorem C7_asm_section_errors_witness :
    asm true (parseOf tomlC7) fsFile false false
        ⟨none, "default", none, none, none, ["None"], some "cfg.toml"⟩ =
      .error (.badOptionUsage "--config" emptyAsmMsg) :=
  (C7_asm_section_errors (parseOf tomlC7) fsFile false false none "default"
    none none none ["None"] "cfg.toml" tomlC7 rfl).2 secC7 rfl rfl rfl rfl

/-- C8 counterexample: with execute-after set, quiet unset and a successful
execution, the emitted messages are the execute banner followed by blank,
accumulator, carry, blank: five messages with no blank line before the
banner, not the six message sequence the claim states. -/
theorem C8_counterexample :
    asm true emptyParse fsNoSuchFile true true
        ⟨some "a.asm", "default", some true, none, none, ["OBJ"], none⟩ =
      .ok ⟨PyVal.str "a.asm", PyVal.str "default", PyVal.pynone,
        PyVal.tuple [PyVal.str "OBJ"], true,
        [Msg.execBanner, Msg.blank, Msg.acc, Msg.carry, Msg.blank]⟩ ∧
    ([Msg.execBanner, Msg.blank, Msg.acc, Msg.carry, Msg.blank] ≠
      [Msg.blank, Msg.execBanner, Msg.blank, Msg.acc, Msg.carry, Msg.blank]) :=
  ⟨rfl, by decide⟩

/-- C8 amended: whenever the asm tail succeeds, the emitted messages are the
execute banner (emitted before execution, hence present even when execution
fails) followed, only when execution succeeded, by blank, accumulator, carry
and blank; each message is suppressed when quiet is truthy, so with quiet set
nothing is emitted regardless of whether execution succeeded. -/
theorem C8_exec_trace (aRes eRes : Bool) (i o x m q t : PyVal) (out : AsmOutcome)
    (h : asm_tail aRes eRes i o x m q t = .ok out) :
    out.trace =
      (if (aRes && x.truthy) = true then
        (if q.truthy = true then [] else [Msg.execBanner]) ++
          (if eRes = true then
            (if q.truthy = true then [] else [Msg.blank, Msg.acc, Msg.carry, Msg.blank])
          else [])
      else []) ∧
    (q.truthy = true → out.trace = []) := by
  unfold asm_tail at h
  split at h
  · simp at h
  · split at h
    · simp at h
    · split at h
      · simp at h
      · split at h
        · simp at h
        · injection h with h2
          subst h2
          constructor
          · cases hq : PyVal.truthy q <;> cases hax : (aRes && PyVal.truthy x) <;>
              cases eRes <;> simp [print_messages, hq, hax]
          · intro hq
            cases hax : (aRes && PyVal.truthy x) <;> cases eRes <;>
              simp [print_messages, hq, hax]

/-- A concrete successful asm tail outcome with quiet true: execute ran and
no message was emitted. -/
def out8 : AsmOutcome :=
  ⟨PyVal.pynone, PyVal.str "default", PyVal.bool true,
    PyVal.tuple [PyVal.str "OBJ"], true, []⟩

/-- Witness for C8 amended: with quiet true and a successful execution the
trace is empty. -/
theorem C8_exec_trace_witness :
    out8.trace =
      (if (true && (PyVal.bool true).truthy) = true then
        (if (PyVal.bool true).truthy = true then [] else [Msg.execBanner]) ++
          (if true = true then
            (if (PyVal.bool true).truthy = true then []
             else [Msg.blank, Msg.acc, Msg.carry, Msg.blank])
          else [])
      else []) ∧
    ((PyVal.bool true).truthy = true → out8.trace = []) :=
  C8_exec_trace true true PyVal.pynone (PyVal.str "default") (PyVal.bool true)
    PyVal.pynone (PyVal.bool true) (PyVal.tuple [PyVal.str "OBJ"]) out8 rfl

/-- A well formed configuration used for the successful load case. -/
def tomlC9 : Toml := [("asm", [("input", PyVal.str "a.asm")])]

/-- C9: configuration loading behaviour of `get_config`.  A missing file
(strerror starting with No such file) is converted to ConfigFileNotFound and
a malformed file to BadFormat, and a successful parse is returned unchanged;
but a file that exists and cannot be opened is not converted: the OSError is
swallowed by the open probe and the load step then raises the raw OSError,
which differs from the ConfigFileNotFound error the claim requires for every
unopenable path. -/
theorem C9_get_config_behaviour :
    get_config emptyParse fsPermDenied "cfg.toml" =
      .error (.osError "Permission denied") ∧
    Err.osError "Permission denied" ≠ Err.configFileNotFound configNotFoundMsg ∧
    get_config emptyParse fsNoSuchFile "cfg.toml" =
      .error (.configFileNotFound configNotFoundMsg) ∧
    get_config emptyParse fsFile "cfg.toml" = .error (.badFormat badFormatMsg) ∧
    get_config (parseOf tomlC9) fsFile "cfg.toml" = .ok tomlC9 :=
  ⟨rfl, by decide, rfl, rfl, rfl⟩

/-- An asm section supplying an empty type collection. -/
def tomlC10 : Toml := [("asm", [("type", PyVal.list [])])]

/-- C10: an empty type collection from the configuration is not the default
marker, so the presence check does not fire; the content check accepts the
empty collection; and the asm command dispatches assemble with the empty
type set (input unresolved, output at its default, quiet false, no execute
chain). -/
theorem C10_empty_type_collection :
    (PyVal.list []).eqStrTuple ["None"] = false ∧
    check_type [] = .ok () ∧
    asm true (parseOf tomlC10) fsFile true true
        ⟨none, "default", none, none, none, ["None"], some "cfg.toml"⟩ =
      .ok ⟨PyVal.pynone, PyVal.str "default", PyVal.bool false, PyVal.list [],
        false, []⟩ :=
  ⟨rfl, rfl, rfl⟩

end Cli4004
